import Mathlib

/-!
Verification of the schema-driven dynamic-form engine of
`src/components/dynamic-form.tsx` (supabase-embedded-dashboard).

The embedding models the Zod runtime type descriptors the component
inspects (`_def.typeName` and the wrapper chain), JavaScript runtime
values, and the four pieces of logic the claims are about:

* `unwrapZodType`  — lines 40-65 (wrapper stripping);
* `defaultValues`  — lines 77-115 (default-value synthesis);
* `processedInitialValues` — lines 126-183 (initial-value normalization);
* the edit-time input coercions of `renderField` — lines 258-262
  (number input) and 370-389 (array input).

JavaScript machine-level details are modelled explicitly: numbers are
`Int` (the code only ever produces integers via `parseInt`/`Number` on
integer-literal strings; fractional, exponent and hex literal forms are
outside the claims and are mapped to NaN, i.e. `none`), NaN is `Option`'s
`none`, exceptions are `Except`, and string primitives (`trim`, `split`,
`slice`, `startsWith`, `endsWith`) are re-implemented structurally on the
character list so that every definition evaluates by kernel reduction.
-/

namespace DynamicForm

/-- JavaScript runtime values as they flow through the component:
`null`, `undefined`, booleans, (integer) numbers, strings and arrays. -/
inductive JSValue where
  | vNull
  | vUndefined
  | vBool (b : Bool)
  | vNum (n : Int)
  | vStr (s : String)
  | vArr (elems : List JSValue)
  deriving Repr

/-- Zod runtime type descriptors, as discriminated by `_def.typeName` in
the source.  `zodDefault` carries the value produced by invoking the
stored `_def.defaultValue()` thunk.  `zodOther` is a valid Zod schema
whose `typeName` is outside the set the component handles (e.g.
`ZodDate`); `zodInvalid` is a value that is not a valid Zod schema
object (no `_def` object), for which any `_def.typeName` access throws. -/
inductive ZodType where
  | zodString
  | zodNumber
  | zodBoolean
  | zodEnum (values : List String)
  | zodArray (element : ZodType)
  | zodOptional (innerType : ZodType)
  | zodNullable (innerType : ZodType)
  | zodDefault (innerType : ZodType) (defaultValue : JSValue)
  | zodEffects (schema : ZodType)
  | zodOther (typeName : String)
  | zodInvalid
  deriving Repr

/-- The open-brace character, `"{"` in the source (written by code point
to keep string literals plain). -/
def openBrace : Char := Char.ofNat 123

/-- The close-brace character, `"}"` in the source. -/
def closeBrace : Char := Char.ofNat 125

/-- JavaScript `String.prototype.trim`, structurally on the character
list (ASCII whitespace; the inputs of interest contain no exotic
Unicode whitespace). -/
def jsTrim (s : String) : String :=
  String.mk (((s.toList.dropWhile Char.isWhitespace).reverse.dropWhile
    Char.isWhitespace).reverse)

/-- Character-list core of JavaScript `split(",")`: `""` yields `[""]`,
separators at the ends yield empty fragments. -/
def splitCommaChars : List Char → List (List Char)
  | [] => [[]]
  | c :: rest =>
    let r := splitCommaChars rest
    if c == ',' then [] :: r
    else
      match r with
      | [] => [[c]]
      | g :: gs => (c :: g) :: gs

/-- JavaScript `value.split(",")`. -/
def jsSplitComma (s : String) : List String :=
  (splitCommaChars s.toList).map (fun cs => String.mk cs)

/-- JavaScript `value.startsWith("{")`. -/
def startsWithOpenBrace (s : String) : Bool :=
  match s.toList with
  | [] => false
  | c :: _ => c == openBrace

/-- JavaScript `value.endsWith("}")`. -/
def endsWithCloseBrace (s : String) : Bool :=
  match s.toList.getLast? with
  | none => false
  | some c => c == closeBrace

/-- JavaScript `value.slice(1, -1)`: drop the first and last character. -/
def sliceInner (s : String) : String :=
  String.mk ((s.toList.drop 1).dropLast)

/-- Numeric value of a list of decimal digit characters. -/
def digitsToNat (cs : List Char) : Nat :=
  cs.foldl (fun acc c => acc * 10 + (c.toNat - 48)) 0

/-- Value of a non-empty all-digit character list, `none` otherwise
(used for the whole-string `Number` conversion). -/
def decDigitsVal (cs : List Char) : Option Int :=
  if cs.isEmpty then none
  else if cs.all Char.isDigit then some (digitsToNat cs) else none

/-- Value of the longest leading digit run, `none` when there is none
(used for `parseInt`). -/
def leadingDigitsVal (cs : List Char) : Option Int :=
  let ds := cs.takeWhile Char.isDigit
  if ds.isEmpty then none else some (digitsToNat ds)

/-- JavaScript `Number(string)` restricted to the decimal-integer
literal forms the component exercises: whitespace trimmed, `""` is `0`,
an optionally signed all-digit string is its value, anything else is
NaN (`none`).  (Fractional, exponent and hex literals lie outside the
integer value model and also map to `none`; no claim exercises them.) -/
def strToNumber (s : String) : Option Int :=
  match (jsTrim s).toList with
  | [] => some 0
  | '-' :: rest => (decDigitsVal rest).map (fun n => -n)
  | '+' :: rest => decDigitsVal rest
  | cs => decDigitsVal cs

/-- JavaScript `parseInt(string, 10)`: trim, optional sign, longest
leading digit run; NaN (`none`) when no digits are found. -/
def jsParseInt (s : String) : Option Int :=
  match (jsTrim s).toList with
  | '-' :: rest => (leadingDigitsVal rest).map (fun n => -n)
  | '+' :: rest => leadingDigitsVal rest
  | cs => leadingDigitsVal cs

mutual

/-- JavaScript `String(value)` / `ToString`. -/
def jsToString : JSValue → String
  | .vNull => "null"
  | .vUndefined => "undefined"
  | .vBool b => if b then "true" else "false"
  | .vNum n => toString n
  | .vStr s => s
  | .vArr elems => jsArrJoin elems

/-- JavaScript `Array.prototype.toString` (join with `","`). -/
def jsArrJoin : List JSValue → String
  | [] => ""
  | [e] => jsElemStr e
  | e :: rest => jsElemStr e ++ "," ++ jsArrJoin rest

/-- Array elements stringify like `String(e)` except that `null` and
`undefined` join as the empty string. -/
def jsElemStr : JSValue → String
  | .vNull => ""
  | .vUndefined => ""
  | .vBool b => if b then "true" else "false"
  | .vNum n => toString n
  | .vStr s => s
  | .vArr elems => jsArrJoin elems

end

/-- JavaScript truthiness, `!!value`. -/
def jsTruthy : JSValue → Bool
  | .vNull => false
  | .vUndefined => false
  | .vBool b => b
  | .vNum n => n != 0
  | .vStr s => s != ""
  | .vArr _ => true

/-- JavaScript `Number(value)`: `null` is `0`, `undefined` is NaN,
booleans are `0`/`1`, strings via `strToNumber`, arrays via their
string conversion (ToPrimitive). -/
def jsToNumber : JSValue → Option Int
  | .vNull => some 0
  | .vUndefined => none
  | .vBool b => some (if b then 1 else 0)
  | .vNum n => some n
  | .vStr s => strToNumber s
  | .vArr elems => strToNumber (jsArrJoin elems)

/-- JavaScript `Array.prototype.includes` on the enum option list
(SameValueZero: a non-string value is never equal to a string option). -/
def enumIncludes (values : List String) (v : JSValue) : Bool :=
  match v with
  | .vStr s => values.contains s
  | _ => false

/-- The source's `enumValues[0] || ""` and
`enumValues.length > 0 ? enumValues[0] : ""`; the two expressions
coincide because the only falsy string is `""` itself. -/
def enumFirstOr (values : List String) : String :=
  match values with
  | [] => ""
  | v :: _ => v

/-- The `while` loop of `unwrapZodType` (dynamic-form.tsx lines 51-63):
strip `ZodOptional`, `ZodDefault`, `ZodNullable` and `ZodEffects`
(through `_def.schema` for effects, `_def.innerType` otherwise) until a
non-wrapper is reached.  Reaching an invalid object while unwrapping
makes the loop condition's `_def.typeName` access throw a `TypeError`. -/
def unwrapLoop : ZodType → Except String ZodType
  | .zodOptional innerType => unwrapLoop innerType
  | .zodDefault innerType _ => unwrapLoop innerType
  | .zodNullable innerType => unwrapLoop innerType
  | .zodEffects schema => unwrapLoop schema
  | .zodInvalid => .error "TypeError: cannot read typeName of an invalid schema"
  | t => .ok t

/-- `unwrapZodType` (dynamic-form.tsx lines 40-65): an invalid schema
object is rejected up front with the source's error message, then the
wrapper-stripping loop runs. -/
def unwrapZodType (fieldSchema : ZodType) : Except String ZodType :=
  match fieldSchema with
  | .zodInvalid => .error "unwrapZodType received an invalid Zod schema object."
  | t => unwrapLoop t

/-- The type-based fallback of the `switch` in `defaultValues`
(dynamic-form.tsx lines 92-113). -/
def typeBasedDefault : ZodType → JSValue
  | .zodString => .vStr ""
  | .zodBoolean => .vBool false
  | .zodEnum values => .vStr (enumFirstOr values)
  | .zodNumber => .vNum 0
  | .zodArray _ => .vArr []
  | _ => .vUndefined

/-- Per-field body of the `defaultValues` reducer (dynamic-form.tsx
lines 78-114): an absent (`undefined`) field schema throws the schema
error; an invalid object throws a `TypeError` at the
`_def.typeName === "ZodDefault"` check (line 85); an outermost
`ZodDefault` short-circuits to `_def.defaultValue()`; otherwise the
type-based fallback of the unwrapped base type is used. -/
def defaultValuesField (originalFieldSchema : Option ZodType) : Except String JSValue :=
  match originalFieldSchema with
  | none => .error "Schema error: schema.shape[key] is undefined. Check schema definition."
  | some .zodInvalid => .error "TypeError: cannot read typeName of an invalid schema"
  | some (.zodDefault _ d) => .ok d
  | some t =>
    match unwrapZodType t with
    | .error e => .error e
    | .ok baseType => .ok (typeBasedDefault baseType)

/-- `defaultValues` (dynamic-form.tsx lines 77-115): fold the per-field
synthesis over `Object.keys(schema.shape)` in order; a throw aborts the
whole construction.  A schema shape is an ordered association list from
field name to the field's schema (`none` models an `undefined` entry). -/
def defaultValues : List (String × Option ZodType) → Except String (List (String × JSValue))
  | [] => .ok []
  | (key, fieldSchema) :: rest =>
    match defaultValuesField fieldSchema with
    | .error e => .error e
    | .ok v =>
      match defaultValues rest with
      | .error e => .error e
      | .ok tail => .ok ((key, v) :: tail)

/-- The `initialValues.hasOwnProperty(key) ? initialValues[key] : undefined`
read (dynamic-form.tsx lines 133-135) over an association-list model of
the external value object. -/
def lookupJS (initialValues : List (String × JSValue)) (key : String) : JSValue :=
  match initialValues.find? (fun p => p.1 == key) with
  | some p => p.2
  | none => .vUndefined

/-- List of the trimmed comma-separated fragments of the brace literal's
inner content, as `JSValue` strings
(`innerContent.split(",").map((item) => item.trim())`, line 170). -/
def trimmedSplit (innerContent : String) : List JSValue :=
  (jsSplitComma innerContent).map (fun item => .vStr (jsTrim item))

/-- Per-base-type coercion of `processedInitialValues` (dynamic-form.tsx
lines 138-181), applied to the externally supplied value for one field.
The `try` around the brace-literal parse is modelled by its body alone:
`slice`, `trim`, `split` and `map` on strings cannot throw, so the
`catch` arm (line 172-175) contributes no behaviour. -/
def normalizeField (baseFieldType : ZodType) (value : JSValue) : JSValue :=
  match baseFieldType with
  | .zodBoolean => .vBool (jsTruthy value)
  | .zodString =>
    match value with
    | .vNull => .vStr ""
    | .vUndefined => .vStr ""
    | v => .vStr (jsToString v)
  | .zodEnum values =>
    match value with
    | .vNull => .vStr (enumFirstOr values)
    | .vUndefined => .vStr (enumFirstOr values)
    | v => if enumIncludes values v then .vStr (jsToString v) else .vStr (enumFirstOr values)
  | .zodNumber =>
    match jsToNumber value with
    | none => .vNum 0
    | some n => .vNum n
  | .zodArray _ =>
    match value with
    | .vArr xs => .vArr xs
    | .vNull => .vArr []
    | .vUndefined => .vArr []
    | .vStr s =>
      if startsWithOpenBrace s && endsWithCloseBrace s then
        let innerContent := sliceInner s
        if jsTrim innerContent = "" then .vArr []
        else .vArr (trimmedSplit innerContent)
      else .vArr []
    | _ => .vArr []
  | _ => value

/-- Per-field body of the `processedInitialValues` reducer
(dynamic-form.tsx lines 127-181): absent field schema throws, then the
base type is computed by `unwrapZodType` and the per-type coercion is
applied to the supplied value. -/
def normalizeFieldEntry (fieldDefFromSchema : Option ZodType) (value : JSValue) :
    Except String JSValue :=
  match fieldDefFromSchema with
  | none => .error "Schema error in useEffect: schema.shape[key] is undefined."
  | some t =>
    match unwrapZodType t with
    | .error e => .error e
    | .ok baseFieldType => .ok (normalizeField baseFieldType value)

/-- `processedInitialValues` (dynamic-form.tsx lines 126-183): fold the
per-field normalization over the schema's own keys in order, reading
each field's external value (or `undefined`) from `initialValues`. -/
def processedInitialValues (shape : List (String × Option ZodType))
    (initialValues : List (String × JSValue)) : Except String (List (String × JSValue)) :=
  match shape with
  | [] => .ok []
  | (key, fieldSchema) :: rest =>
    match normalizeFieldEntry fieldSchema (lookupJS initialValues key) with
    | .error e => .error e
    | .ok v =>
      match processedInitialValues rest initialValues with
      | .error e => .error e
      | .ok tail => .ok ((key, v) :: tail)

/-- Edit-time coercion of the number renderer (dynamic-form.tsx lines
258-262): `parseInt(value, 10)`, passing `undefined` on NaN. -/
def numberEditChange (value : String) : JSValue :=
  match jsParseInt value with
  | none => .vUndefined
  | some num => .vNum num

/-- Edit-time coercion of the array renderer (dynamic-form.tsx lines
370-389).  `parsed` is the outcome of the platform primitive
`JSON.parse(value)` — `some v` on success, `none` when it throws — which
the `try`/`catch` inspects; every case stores a value (`null`, the
parsed array, or the raw string), so the handler is total. -/
def arrayEditChange (value : String) (parsed : Option JSValue) : JSValue :=
  if jsTrim value = "" then .vNull
  else
    match parsed with
    | some (.vArr xs) => .vArr xs
    | some _ => .vStr value
    | none => .vStr value

/-- Wrapper layers that can be applied around a base type, for stating
nesting-order independence of unwrapping. -/
inductive Wrapper where
  | optionalW
  | nullableW
  | defaultW (d : JSValue)
  | effectsW
  deriving Repr

/-- Apply one wrapper layer. -/
def applyWrapper (w : Wrapper) (t : ZodType) : ZodType :=
  match w with
  | .optionalW => .zodOptional t
  | .nullableW => .zodNullable t
  | .defaultW d => .zodDefault t d
  | .effectsW => .zodEffects t

/-- Apply a nesting of wrapper layers, outermost first. -/
def applyWrappers (ws : List Wrapper) (t : ZodType) : ZodType :=
  ws.foldr applyWrapper t

/-- Whether the outermost constructor is the `ZodDefault` wrapper (the
only position at which `defaultValues` honours a declared default). -/
def isOuterDefault : ZodType → Bool
  | .zodDefault _ _ => true
  | _ => false

/-- Success test for the exception model. -/
def isOkE {α : Type} : Except String α → Bool
  | .ok _ => true
  | .error _ => false

/-! ## Helper lemmas -/

/-- The wrapper-stripping loop is a fixpoint on its own successful
result: the returned type carries no further strippable wrapper. -/
theorem unwrapLoop_fixpoint : ∀ t b : ZodType, unwrapLoop t = .ok b → unwrapLoop b = .ok b := by
  intro t
  induction t with
  | zodOptional innerType ih => exact fun b h => ih b h
  | zodNullable innerType ih => exact fun b h => ih b h
  | zodDefault innerType d ih => exact fun b h => ih b h
  | zodEffects schema ih => exact fun b h => ih b h
  | zodInvalid => intro b h; simp [unwrapLoop] at h
  | zodString => intro b h; injection h with h2; subst h2; rfl
  | zodNumber => intro b h; injection h with h2; subst h2; rfl
  | zodBoolean => intro b h; injection h with h2; subst h2; rfl
  | zodEnum values => intro b h; injection h with h2; subst h2; rfl
  | zodArray element _ => intro b h; injection h with h2; subst h2; rfl
  | zodOther typeName => intro b h; injection h with h2; subst h2; rfl

/-- A successful `unwrapZodType` agrees with the bare loop. -/
theorem unwrapZodType_ok_loop : ∀ t b : ZodType, unwrapZodType t = .ok b → unwrapLoop t = .ok b := by
  intro t b h
  cases t <;> first
    | exact h
    | simp [unwrapZodType] at h

/-- The loop never returns the invalid marker on success. -/
theorem unwrapLoop_ok_not_invalid :
    ∀ t b : ZodType, unwrapLoop t = .ok b → b ≠ ZodType.zodInvalid := by
  intro t b h hb
  subst hb
  have h2 := unwrapLoop_fixpoint t _ h
  simp [unwrapLoop] at h2

/-- Unwrapping a successfully unwrapped base type returns it unchanged. -/
theorem unwrapZodType_fixpoint :
    ∀ t b : ZodType, unwrapZodType t = .ok b → unwrapZodType b = .ok b := by
  intro t b h
  have hl := unwrapZodType_ok_loop t b h
  have hfix := unwrapLoop_fixpoint t b hl
  have hni := unwrapLoop_ok_not_invalid t b hl
  cases b <;> first
    | exact absurd rfl hni
    | exact hfix

/-- Wrapping a type in any nesting of optional/nullable/default/effects
layers does not change what it unwraps to. -/
theorem unwrapZodType_applyWrappers :
    ∀ (ws : List Wrapper) (t b : ZodType), unwrapZodType t = .ok b →
      unwrapZodType (applyWrappers ws t) = .ok b := by
  intro ws
  induction ws with
  | nil => exact fun t b h => h
  | cons w ws ih =>
    intro t b h
    have hl := unwrapZodType_ok_loop _ _ (ih t b h)
    cases w <;> exact hl

/-- Successful `defaultValues` preserves the schema's key list. -/
theorem defaultValues_keys :
    ∀ (shape : List (String × Option ZodType)) (res : List (String × JSValue)),
      defaultValues shape = .ok res → res.map Prod.fst = shape.map Prod.fst := by
  intro shape
  induction shape with
  | nil =>
    intro res h
    injection h with h2
    subst h2
    rfl
  | cons p rest ih =>
    intro res h
    obtain ⟨key, fs⟩ := p
    cases hf : defaultValuesField fs with
    | error e => simp [defaultValues, hf] at h
    | ok v =>
      cases hr : defaultValues rest with
      | error e => simp [defaultValues, hf, hr] at h
      | ok tail =>
        simp [defaultValues, hf, hr] at h
        subst h
        simp [ih tail hr]

/-- Successful `processedInitialValues` preserves the schema's key list,
whatever the external value object contains. -/
theorem processedInitialValues_keys :
    ∀ (shape : List (String × Option ZodType)) (vals res : List (String × JSValue)),
      processedInitialValues shape vals = .ok res → res.map Prod.fst = shape.map Prod.fst := by
  intro shape
  induction shape with
  | nil =>
    intro vals res h
    injection h with h2
    subst h2
    rfl
  | cons p rest ih =>
    intro vals res h
    obtain ⟨key, fs⟩ := p
    cases hf : normalizeFieldEntry fs (lookupJS vals key) with
    | error e => simp [processedInitialValues, hf] at h
    | ok v =>
      cases hr : processedInitialValues rest vals with
      | error e => simp [processedInitialValues, hf, hr] at h
      | ok tail =>
        simp [processedInitialValues, hf, hr] at h
        subst h
        simp [ih vals tail hr]

/-- Normalizing the `undefined` read for an absent external value yields
exactly the type-based fallback of `defaultValues`, for every base type. -/
theorem normalizeField_undefined_eq_fallback :
    ∀ base : ZodType, normalizeField base .vUndefined = typeBasedDefault base := by
  intro base
  cases base <;> rfl

/-- A field with no outermost default and a successfully unwrapping type
synthesizes the type-based fallback of its base type. -/
theorem defaultValuesField_no_default :
    ∀ t b : ZodType, isOuterDefault t = false → unwrapZodType t = .ok b →
      defaultValuesField (some t) = .ok (typeBasedDefault b) := by
  intro t b hod hu
  cases t with
  | zodString => simp [defaultValuesField, hu]
  | zodNumber => simp [defaultValuesField, hu]
  | zodBoolean => simp [defaultValuesField, hu]
  | zodEnum values => simp [defaultValuesField, hu]
  | zodArray element => simp [defaultValuesField, hu]
  | zodOptional innerType => simp [defaultValuesField, hu]
  | zodNullable innerType => simp [defaultValuesField, hu]
  | zodDefault innerType d => simp [isOuterDefault] at hod
  | zodEffects schema => simp [defaultValuesField, hu]
  | zodOther typeName => simp [defaultValuesField, hu]
  | zodInvalid => simp [unwrapZodType] at hu

/-- With no external values, normalization computes exactly the default
synthesis on any schema of present, outer-default-free, unwrappable
fields. -/
theorem processed_empty_eq_defaults :
    ∀ shape : List (String × Option ZodType),
      (∀ p ∈ shape, ∃ t b, p.2 = some t ∧ isOuterDefault t = false ∧ unwrapZodType t = .ok b) →
      processedInitialValues shape [] = defaultValues shape := by
  intro shape
  induction shape with
  | nil => exact fun _ => rfl
  | cons p rest ih =>
    intro hall
    obtain ⟨key, fs⟩ := p
    obtain ⟨t, b, hfs, hod, hu⟩ := hall (key, fs) (List.mem_cons_self _ _)
    simp only at hfs
    subst hfs
    have hrest := ih (fun q hq => hall q (List.mem_cons_of_mem _ hq))
    have hnf : normalizeFieldEntry (some t) (lookupJS [] key) = .ok (normalizeField b .vUndefined) := by
      simp [normalizeFieldEntry, lookupJS, hu]
    have hdf : defaultValuesField (some t) = .ok (typeBasedDefault b) :=
      defaultValuesField_no_default t b hod hu
    cases hr : defaultValues rest with
    | error e =>
      simp [processedInitialValues, defaultValues, hnf, hdf, hrest, hr,
        normalizeField_undefined_eq_fallback]
    | ok tail =>
      simp [processedInitialValues, defaultValues, hnf, hdf, hrest, hr,
        normalizeField_undefined_eq_fallback]

/-- Equation lemma for the success test. -/
theorem isOkE_ok {α : Type} (a : α) : isOkE (Except.ok a : Except String α) = true := rfl

/-- Equation lemma for the failure test. -/
theorem isOkE_error {α : Type} (e : String) : isOkE (Except.error e : Except String α) = false := rfl

/-- Construction succeeds exactly when every field's synthesis succeeds
(the fold aborts at the first throwing field, and a successful fold has
no throwing field). -/
theorem defaultValues_ok_all :
    ∀ shape : List (String × Option ZodType),
      isOkE (defaultValues shape) = shape.all (fun p => isOkE (defaultValuesField p.2)) := by
  intro shape
  induction shape with
  | nil => rfl
  | cons p rest ih =>
    obtain ⟨key, fs⟩ := p
    cases hf : defaultValuesField fs with
    | error e =>
      simp only [defaultValues, hf, List.all_cons, isOkE_ok, isOkE_error, Bool.false_and]
    | ok v =>
      cases hr : defaultValues rest with
      | error e =>
        simp only [defaultValues, hf, hr, List.all_cons, isOkE_ok, isOkE_error,
          Bool.true_and, ← ih]
      | ok tail =>
        simp only [defaultValues, hf, hr, List.all_cons, isOkE_ok, isOkE_error,
          Bool.true_and, ← ih]

/-! ## Claim theorems -/

/-- C1 (counterexample): a field whose declared default is nested beneath
an optional wrapper — `ZodOptional(ZodDefault(ZodString, "x"))` — gets
the string fallback `""`, not its declared default `"x"`: the code only
honours a default whose wrapper is outermost. -/
theorem C1_counterexample :
    defaultValues [("f", some (.zodOptional (.zodDefault .zodString (.vStr "x"))))]
      = .ok [("f", JSValue.vStr "")] ∧ JSValue.vStr "" ≠ JSValue.vStr "x" :=
  ⟨rfl, fun h => by injection h with h2; exact absurd h2 (by decide)⟩

/-- C1 (amended): when the explicit default wrapper is the OUTERMOST
wrapper of the field's type, `defaultValues` uses the declared default
(the invoked `defaultValue()` result), even when the base type's
fallback differs (`ZodString` falls back to `""`, not `"x"`); when the
default wrapper is nested beneath any non-default wrapper — an
optional, nullable or effects wrapper outermost, with any further
wrapper layers in between — the declared default is ignored and the
unwrapped base type's fallback is used instead. -/
theorem C1_default_outermost_only :
    (∀ (t : ZodType) (d : JSValue), defaultValuesField (some (.zodDefault t d)) = .ok d) ∧
    defaultValues [("f", some (.zodDefault .zodString (.vStr "x")))] = .ok [("f", JSValue.vStr "x")] ∧
    typeBasedDefault .zodString = .vStr "" ∧
    (∀ (w : Wrapper) (ws : List Wrapper) (t : ZodType) (d : JSValue) (b : ZodType),
      (∀ d2 : JSValue, w ≠ Wrapper.defaultW d2) → unwrapLoop t = .ok b →
      defaultValuesField (some (applyWrappers (w :: ws) (.zodDefault t d)))
        = .ok (typeBasedDefault b)) := by
  refine ⟨fun t d => rfl, rfl, rfl, fun w ws t d b hw h => ?_⟩
  have hu : unwrapZodType (applyWrappers (w :: ws) (.zodDefault t d)) = .ok b :=
    unwrapZodType_applyWrappers (w :: ws) (.zodDefault t d) b
      (show unwrapZodType (.zodDefault t d) = .ok b from h)
  have hod : isOuterDefault (applyWrappers (w :: ws) (.zodDefault t d)) = false := by
    cases w with
    | optionalW => rfl
    | nullableW => rfl
    | effectsW => rfl
    | defaultW d2 => exact absurd rfl (hw d2)
  exact defaultValuesField_no_default _ b hod hu

/-- C1 witness: applying the amended theorem's nested-default part at a
concrete field type with the default two wrapper layers deep. -/
theorem C1_default_outermost_only_witness :
    defaultValuesField
        (some (.zodNullable (.zodOptional (.zodDefault .zodString (JSValue.vStr "x")))))
      = .ok (typeBasedDefault .zodString) :=
  C1_default_outermost_only.2.2.2 Wrapper.nullableW [Wrapper.optionalW] .zodString
    (JSValue.vStr "x") .zodString (fun _ h => Wrapper.noConfusion h) rfl

/-- C2: List-field initial-value normalization — an array value is used
unchanged; `null`/`undefined` give the empty array; a brace-delimited
comma-separated string literal gives the trimmed elements
(`"\x7ba, b ,c\x7d"` gives `["a","b","c"]`, `"\x7b\x7d"` gives `[]`);
every string not of the brace form and every other value shape gives
the empty array; and the schema-level normalization agrees on the
spec's concrete round trips. -/
theorem C2_list_normalization (elem : ZodType) (xs : List JSValue) (s : String)
    (b : Bool) (n : Int)
    (hs : (startsWithOpenBrace s && endsWithCloseBrace s) = false) :
    normalizeField (.zodArray elem) (.vStr s) = .vArr [] ∧
    normalizeField (.zodArray elem) (.vArr xs) = .vArr xs ∧
    normalizeField (.zodArray elem) .vNull = .vArr [] ∧
    normalizeField (.zodArray elem) .vUndefined = .vArr [] ∧
    normalizeField (.zodArray elem) (.vBool b) = .vArr [] ∧
    normalizeField (.zodArray elem) (.vNum n) = .vArr [] ∧
    normalizeField (.zodArray elem) (.vStr "\x7ba, b ,c\x7d")
      = .vArr [.vStr "a", .vStr "b", .vStr "c"] ∧
    normalizeField (.zodArray elem) (.vStr "\x7b\x7d") = .vArr [] ∧
    processedInitialValues [("listField", some (.zodArray .zodString))]
        [("listField", .vStr "\x7ba,b,c\x7d")]
      = .ok [("listField", .vArr [.vStr "a", .vStr "b", .vStr "c"])] ∧
    processedInitialValues [("listField", some (.zodArray .zodString))] [("listField", .vNull)]
      = .ok [("listField", .vArr [])] := by
  refine ⟨?_, rfl, rfl, rfl, rfl, rfl, rfl, rfl, rfl, rfl⟩
  simp [normalizeField, hs]

/-- C2 witness: a non-brace string falls back to the empty array. -/
theorem C2_list_normalization_witness :
    normalizeField (.zodArray .zodString) (.vStr "abc") = .vArr [] :=
  (C2_list_normalization .zodString [] "abc" true 0 (by decide)).1

/-- C3: List-field edit-time coercion — blank input stores explicit
`null`; input parsing (via the `JSON.parse` outcome `parsed`) to an
array stores the parsed array; input that fails to parse, or parses to
a non-array value, stores the raw input string verbatim.  The handler
is a total function: every input falls into one of these stored-value
cases, so nothing is thrown past the form and no input is discarded. -/
theorem C3_list_edit_coercion :
    (∀ (s : String) (parsed : Option JSValue), jsTrim s = "" →
      arrayEditChange s parsed = .vNull) ∧
    (∀ (s : String) (xs : List JSValue), jsTrim s ≠ "" →
      arrayEditChange s (some (.vArr xs)) = .vArr xs) ∧
    (∀ (s : String) (v : JSValue), jsTrim s ≠ "" → (∀ xs : List JSValue, v ≠ .vArr xs) →
      arrayEditChange s (some v) = .vStr s) ∧
    (∀ s : String, jsTrim s ≠ "" → arrayEditChange s none = .vStr s) := by
  refine ⟨?_, ?_, ?_, ?_⟩
  · intro s parsed h
    simp [arrayEditChange, h]
  · intro s xs h
    simp [arrayEditChange, h]
  · intro s v h hv
    cases v with
    | vArr xs => exact absurd rfl (hv xs)
    | vNull => simp [arrayEditChange, h]
    | vUndefined => simp [arrayEditChange, h]
    | vBool b => simp [arrayEditChange, h]
    | vNum n => simp [arrayEditChange, h]
    | vStr t => simp [arrayEditChange, h]
  · intro s h
    simp [arrayEditChange, h]

/-- C3 witness: the four stored-value cases at concrete inputs. -/
theorem C3_list_edit_witness :
    arrayEditChange "" (some (.vArr [])) = .vNull ∧
    arrayEditChange "[1]" (some (.vArr [.vNum 1])) = .vArr [.vNum 1] ∧
    arrayEditChange "42" (some (.vNum 42)) = .vStr "42" ∧
    arrayEditChange "[oops" none = .vStr "[oops" :=
  ⟨C3_list_edit_coercion.1 "" (some (.vArr [])) rfl,
   C3_list_edit_coercion.2.1 "[1]" [.vNum 1] (by decide),
   C3_list_edit_coercion.2.2.1 "42" (.vNum 42) (by decide) (fun xs h => JSValue.noConfusion h),
   C3_list_edit_coercion.2.2.2 "[oops" (by decide)⟩

/-- C4: the two Integer coercion policies — the edit-time handler maps
any input on which `parseInt` yields NaN to explicit `undefined` (which
is not the number zero), while initial-value normalization maps the
same non-numeric string `"abc"` to `0` and the numeric string `"42"`
to `42`, also at schema level. -/
theorem C4_integer_two_policies :
    (∀ s : String, jsParseInt s = none → numberEditChange s = .vUndefined) ∧
    JSValue.vUndefined ≠ JSValue.vNum 0 ∧
    numberEditChange "abc" = .vUndefined ∧
    normalizeField .zodNumber (.vStr "abc") = .vNum 0 ∧
    normalizeField .zodNumber (.vStr "42") = .vNum 42 ∧
    processedInitialValues [("intField", some .zodNumber)] [("intField", .vStr "abc")]
      = .ok [("intField", .vNum 0)] ∧
    processedInitialValues [("intField", some .zodNumber)] [("intField", .vStr "42")]
      = .ok [("intField", .vNum 42)] :=
  ⟨fun s h => by simp [numberEditChange, h],
   fun h => JSValue.noConfusion h, rfl, rfl, rfl, rfl, rfl⟩

/-- C4 witness: the edit-time handler at a concrete non-numeric input. -/
theorem C4_integer_two_policies_witness : numberEditChange "xyz" = .vUndefined :=
  C4_integer_two_policies.1 "xyz" rfl

/-- C5: both successful default synthesis and successful normalization
return exactly the schema's own key list — one entry per schema field,
in schema order — so names present only in the external value object
never appear in the result. -/
theorem C5_exact_key_set (shape : List (String × Option ZodType))
    (vals res resN : List (String × JSValue))
    (hd : defaultValues shape = .ok res)
    (hn : processedInitialValues shape vals = .ok resN) :
    res.map Prod.fst = shape.map Prod.fst ∧
    resN.map Prod.fst = shape.map Prod.fst ∧
    (∀ name : String, name ∉ shape.map Prod.fst → name ∉ resN.map Prod.fst) := by
  refine ⟨defaultValues_keys shape res hd, processedInitialValues_keys shape vals resN hn, ?_⟩
  intro name hname
  rw [processedInitialValues_keys shape vals resN hn]
  exact hname

/-- C5 witness: a one-field schema against a value object holding only
an unknown name. -/
theorem C5_exact_key_set_witness :
    ([("name", JSValue.vStr "")]).map Prod.fst
      = ([("name", some ZodType.zodString)]).map Prod.fst :=
  (C5_exact_key_set [("name", some .zodString)] [("extra", .vStr "x")]
    [("name", .vStr "")] [("name", .vStr "")] rfl rfl).1

/-- C6: normalization of the `undefined` read produced by an empty
external value object computes exactly the type-based fallback for
every base type; in particular a field with a declared default is
normalized to its base type's fallback, with the declared default
ignored; and on any schema of present, outer-default-free, unwrappable
fields, `processedInitialValues S []` equals `defaultValues S`. -/
theorem C6_empty_normalization_matches_fallbacks :
    (∀ base : ZodType, normalizeField base .vUndefined = typeBasedDefault base) ∧
    (∀ (t : ZodType) (d : JSValue) (b : ZodType), unwrapLoop t = .ok b →
      normalizeFieldEntry (some (.zodDefault t d)) .vUndefined = .ok (typeBasedDefault b)) ∧
    (∀ shape : List (String × Option ZodType),
      (∀ p ∈ shape, ∃ t b, p.2 = some t ∧ isOuterDefault t = false ∧ unwrapZodType t = .ok b) →
      processedInitialValues shape [] = defaultValues shape) := by
  refine ⟨normalizeField_undefined_eq_fallback, ?_, processed_empty_eq_defaults⟩
  intro t d b h
  have hu : unwrapZodType (.zodDefault t d) = .ok b := h
  simp [normalizeFieldEntry, hu, normalizeField_undefined_eq_fallback]

/-- C6 witness: a one-field text schema normalized with no data equals
its default synthesis. -/
theorem C6_empty_normalization_witness :
    processedInitialValues [("name", some ZodType.zodString)] []
      = defaultValues [("name", some ZodType.zodString)] :=
  C6_empty_normalization_matches_fallbacks.2.2 [("name", some .zodString)]
    (fun p hp => by
      simp only [List.mem_singleton] at hp
      subst hp
      exact ⟨.zodString, .zodString, rfl, rfl, rfl⟩)

/-- C8 (counterexample): a schema whose only field unwraps to an
unrecognized primitive (`ZodDate`) constructs successfully with an
`undefined` default — no `SchemaError` is thrown — refuting that
construction fails exactly when unwrapping does not terminate at a
recognized primitive. -/
theorem C8_counterexample :
    defaultValues [("f", some (.zodOther "ZodDate"))] = .ok [("f", JSValue.vUndefined)] ∧
    unwrapZodType (.zodOther "ZodDate") = .ok (.zodOther "ZodDate") :=
  ⟨rfl, rfl⟩

/-- C8 (amended): form construction fails fast exactly when some field's
synthesis throws, and a field's synthesis throws exactly when its
descriptor is absent or an invalid schema object is encountered (up
front or while unwrapping); unwrapping that terminates at an
unrecognized primitive is NOT an error — such a field constructs with
an `undefined` default. -/
theorem C8_fail_fast_characterization (shape : List (String × Option ZodType)) :
    (isOkE (defaultValues shape) = true ↔ ∀ p ∈ shape, isOkE (defaultValuesField p.2) = true) ∧
    (∀ typeName : String, isOkE (defaultValuesField (some (.zodOther typeName))) = true) ∧
    isOkE (defaultValuesField none) = false ∧
    isOkE (defaultValuesField (some .zodInvalid)) = false ∧
    (∀ t : ZodType, isOuterDefault t = false → t ≠ .zodInvalid →
      isOkE (defaultValuesField (some t)) = isOkE (unwrapZodType t)) := by
  refine ⟨?_, fun _ => rfl, rfl, rfl, ?_⟩
  · rw [defaultValues_ok_all]
    exact List.all_eq_true
  · intro t hod hni
    cases t with
    | zodString => cases hu : unwrapZodType .zodString <;> simp [defaultValuesField, hu, isOkE_ok, isOkE_error]
    | zodNumber => cases hu : unwrapZodType .zodNumber <;> simp [defaultValuesField, hu, isOkE_ok, isOkE_error]
    | zodBoolean => cases hu : unwrapZodType .zodBoolean <;> simp [defaultValuesField, hu, isOkE_ok, isOkE_error]
    | zodEnum values => cases hu : unwrapZodType (.zodEnum values) <;> simp [defaultValuesField, hu, isOkE_ok, isOkE_error]
    | zodArray element => cases hu : unwrapZodType (.zodArray element) <;> simp [defaultValuesField, hu, isOkE_ok, isOkE_error]
    | zodOptional innerType =>
      cases hu : unwrapZodType (.zodOptional innerType) <;> simp [defaultValuesField, hu, isOkE_ok, isOkE_error]
    | zodNullable innerType =>
      cases hu : unwrapZodType (.zodNullable innerType) <;> simp [defaultValuesField, hu, isOkE_ok, isOkE_error]
    | zodDefault innerType d => simp [isOuterDefault] at hod
    | zodEffects schema => cases hu : unwrapZodType (.zodEffects schema) <;> simp [defaultValuesField, hu, isOkE_ok, isOkE_error]
    | zodOther typeName => cases hu : unwrapZodType (.zodOther typeName) <;> simp [defaultValuesField, hu, isOkE_ok, isOkE_error]
    | zodInvalid => exact absurd rfl hni

/-- C8 witness: a schema whose single field has an unrecognized base
type constructs successfully. -/
theorem C8_fail_fast_witness :
    isOkE (defaultValues [("f", some (ZodType.zodOther "ZodDate"))]) = true :=
  (C8_fail_fast_characterization [("f", some (.zodOther "ZodDate"))]).1.mpr
    (fun p hp => by
      simp only [List.mem_singleton] at hp
      subst hp
      rfl)

/-- C9: type unwrapping is idempotent — re-unwrapping a successfully
obtained base type returns it unchanged — and nesting-order
independent: any two nestings of optional/nullable/default/effects
wrappers around the same inner type unwrap identically. -/
theorem C9_unwrap_idempotent_order_independent :
    (∀ t b : ZodType, unwrapZodType t = .ok b → unwrapZodType b = .ok b) ∧
    (∀ (ws ws2 : List Wrapper) (t b : ZodType), unwrapZodType t = .ok b →
      unwrapZodType (applyWrappers ws t) = unwrapZodType (applyWrappers ws2 t)) :=
  ⟨unwrapZodType_fixpoint, fun ws ws2 t b h => by
    rw [unwrapZodType_applyWrappers ws t b h, unwrapZodType_applyWrappers ws2 t b h]⟩

/-- C9 witness: idempotence and order independence at a concrete
wrapped string type. -/
theorem C9_unwrap_witness :
    unwrapZodType .zodString = .ok .zodString ∧
    unwrapZodType (applyWrappers [Wrapper.optionalW, Wrapper.defaultW (JSValue.vStr "x")] .zodString)
      = unwrapZodType (applyWrappers [Wrapper.defaultW (JSValue.vStr "x"), Wrapper.optionalW] .zodString) :=
  ⟨C9_unwrap_idempotent_order_independent.1 (.zodOptional .zodString) .zodString rfl,
   C9_unwrap_idempotent_order_independent.2 [Wrapper.optionalW, Wrapper.defaultW (JSValue.vStr "x")]
     [Wrapper.defaultW (JSValue.vStr "x"), Wrapper.optionalW] .zodString .zodString rfl⟩

/-- C10: for every string value that starts with an open brace and ends
with a close brace, the brace-literal branch of List normalization
always produces a value — the empty array for blank inner content,
otherwise the comma-split trimmed elements — with no reachable failure
(the branch's operations are all total); consequently an element
containing a comma is split into several elements, as in
`"\x7b\"a,b\"\x7d"` yielding the two elements `"a` and `b"`. -/
theorem C10_brace_branch_always_succeeds (elem : ZodType) (s : String)
    (h1 : startsWithOpenBrace s = true) (h2 : endsWithCloseBrace s = true) :
    normalizeField (.zodArray elem) (.vStr s)
      = (if jsTrim (sliceInner s) = "" then .vArr []
         else .vArr (trimmedSplit (sliceInner s))) ∧
    normalizeField (.zodArray .zodString) (.vStr "\x7b\"a,b\"\x7d")
      = .vArr [.vStr "\"a", .vStr "b\""] := by
  refine ⟨?_, rfl⟩
  simp [normalizeField, h1, h2]

/-- C10 witness: the brace branch at a concrete literal. -/
theorem C10_brace_branch_witness :
    normalizeField (.zodArray .zodString) (.vStr "\x7ba\x7d")
      = (if jsTrim (sliceInner "\x7ba\x7d") = "" then .vArr []
         else .vArr (trimmedSplit (sliceInner "\x7ba\x7d"))) :=
  (C10_brace_branch_always_succeeds .zodString "\x7ba\x7d" (by decide) (by decide)).1

end DynamicForm
